import Mathlib

set_option maxRecDepth 100000

/-!
Shallow embedding of the pong game in `src/Needgamefast/pong-game/to/main.js`.

The simulation core is the `update()` function together with the module-level
`paddles`, `ball` and `keys` objects.  All numeric fields are JavaScript
numbers manipulated only by addition, negation, `min`/`max` and comparisons;
we embed them as rationals, so every constant of the source
(`0.01`, `0.02`, `0.2`, `0.9`, ...) is represented exactly.

`update()` is translated stage by stage, in the source's statement order:
paddle velocity derivation from `keys`, paddle integration, paddle clamping,
ball integration, wall reflection, left-paddle collision, right-paddle
collision, goal reset.  The key map `keys` is a plain JS object: a missing
entry reads as `undefined`, which is falsy; we embed it as
`String → Option Bool` with truthiness `Option.getD false`.
-/

/-- A paddle as in the `paddles.left` / `paddles.right` object literals:
fixed horizontal coordinate `x`, vertical position `y`, `width` and `height`
fields, and per-tick vertical velocity `dy`. -/
structure Paddle where
  x : ℚ
  y : ℚ
  width : ℚ
  height : ℚ
  dy : ℚ
  deriving DecidableEq, Repr

/-- The ball object: position `x, y`, velocity `dx, dy`, half-extent `size`. -/
structure Ball where
  x : ℚ
  y : ℚ
  dx : ℚ
  dy : ℚ
  size : ℚ
  deriving DecidableEq, Repr

/-- The whole mutable game state touched by `update()`: the two paddles,
the ball, and the key map. -/
structure GameState where
  left : Paddle
  right : Paddle
  ball : Ball
  keys : String → Option Bool

/-- Truthiness of a JS object lookup: a missing key (`undefined`) is falsy,
a stored boolean is itself. -/
def truthy (o : Option Bool) : Bool :=
  o.getD false

/-- The `keydown`/`keyup` handlers: `keys[key] = isDown` overwrites the entry
for `key` and nothing else. -/
def setPressed (m : String → Option Bool) (key : String) (isDown : Bool) :
    String → Option Bool :=
  fun k => if k = key then some isDown else m k

/-- Reading `keys[key]` as a boolean condition, as `update()` does. -/
def isPressed (m : String → Option Bool) (key : String) : Bool :=
  truthy (m key)

/-- The fresh `keys = {}` object: every lookup is `undefined`. -/
def emptyKeys : String → Option Bool :=
  fun _ => none

/-- Folding a list of key events (key identifier, isDown) over a key map,
oldest first, as the event handlers would apply them. -/
def applyEvents (m : String → Option Bool) (es : List (String × Bool)) :
    String → Option Bool :=
  es.foldl (fun acc e => setPressed acc e.1 e.2) m

/-- Paddle velocity derivation: `if (keys[up]) dy = 0.02; else if (keys[down])
dy = -0.02; else dy = 0`. -/
def paddleVel (m : String → Option Bool) (up down : String) : ℚ :=
  if truthy (m up) then 0.02 else if truthy (m down) then -0.02 else 0

/-- The clamp `Math.max(-1 + height / 2, Math.min(1 - height / 2, y))`. -/
def clampPaddle (height y : ℚ) : ℚ :=
  max (-1 + height / 2) (min (1 - height / 2) y)

/-- One tick of a paddle: derive `dy` from the key map, integrate `y`, clamp. -/
def movePaddle (m : String → Option Bool) (up down : String) (p : Paddle) :
    Paddle :=
  let d := paddleVel m up down
  { p with dy := d, y := clampPaddle p.height (p.y + d) }

/-- Ball integration: `ball.x += ball.dx; ball.y += ball.dy`. -/
def integrateBall (b : Ball) : Ball :=
  { b with x := b.x + b.dx, y := b.y + b.dy }

/-- The wall-reflection condition `ball.y > 1 - ball.size || ball.y < -1 +
ball.size`, read on the already-integrated ball. -/
def wallCond (b : Ball) : Prop :=
  b.y > 1 - b.size ∨ b.y < -1 + b.size

instance (b : Ball) : Decidable (wallCond b) := by
  unfold wallCond; infer_instance

/-- Wall reflection: negate `dy` when the integrated `y` is out of range. -/
def wallReflect (b : Ball) : Ball :=
  if wallCond b then { b with dy := -b.dy } else b

/-- The paddle-collision test of `update()`, with the source's strict
comparisons: `ball.x < p.x + p.width && ball.x > p.x - p.width && ball.y <
p.y + p.height / 2 && ball.y > p.y - p.height / 2`. -/
def inOpenBox (p : Paddle) (bx bY : ℚ) : Prop :=
  p.x - p.width < bx ∧ bx < p.x + p.width ∧
    p.y - p.height / 2 < bY ∧ bY < p.y + p.height / 2

instance (p : Paddle) (bx bY : ℚ) : Decidable (inOpenBox p bx bY) := by
  unfold inOpenBox; infer_instance

/-- Membership of the ball point in a paddle's closed bounding box
`[p.x - p.width, p.x + p.width] × [p.y - p.height/2, p.y + p.height/2]`. -/
def inClosedBox (p : Paddle) (bx bY : ℚ) : Prop :=
  p.x - p.width ≤ bx ∧ bx ≤ p.x + p.width ∧
    p.y - p.height / 2 ≤ bY ∧ bY ≤ p.y + p.height / 2

instance (p : Paddle) (bx bY : ℚ) : Decidable (inClosedBox p bx bY) := by
  unfold inClosedBox; infer_instance

/-- Paddle collision: `if (...) ball.dx *= -1`, one paddle at a time. -/
def paddleReflect (p : Paddle) (b : Ball) : Ball :=
  if inOpenBox p b.x b.y then { b with dx := -b.dx } else b

/-- The goal condition `ball.x > 1 || ball.x < -1`. -/
def goalCond (b : Ball) : Prop :=
  b.x > 1 ∨ b.x < -1

instance (b : Ball) : Decidable (goalCond b) := by
  unfold goalCond; infer_instance

/-- Goal reset: `ball.x = 0; ball.y = 0; ball.dx = -ball.dx`.  `dy` and
`size` are not assigned. -/
def goalReset (b : Ball) : Ball :=
  if goalCond b then { b with x := 0, y := 0, dx := -b.dx } else b

/-- The ball part of `update()`, in source order: integrate, wall-reflect,
collide with the (already moved) left paddle, then the right paddle, then
goal-reset. -/
def stepBall (l r : Paddle) (b : Ball) : Ball :=
  goalReset (paddleReflect r (paddleReflect l (wallReflect (integrateBall b))))

/-- One call of `update()`: move both paddles (left from `w`/`s`, right from
`ArrowUp`/`ArrowDown`), then run the ball pipeline against the moved
paddles.  The key map is only read. -/
def step (s : GameState) : GameState :=
  let l := movePaddle s.keys "w" "s" s.left
  let r := movePaddle s.keys "ArrowUp" "ArrowDown" s.right
  { s with left := l, right := r, ball := stepBall l r s.ball }

/-- The paddle geometry of the object literals in the source: left paddle at
`x = -0.9`, right paddle at `x = 0.9`, both with `width = 0.02` and
`height = 0.2`.  `update()` never writes these fields. -/
def stdGeometry (s : GameState) : Prop :=
  s.left.x = -0.9 ∧ s.left.width = 0.02 ∧ s.left.height = 0.2 ∧
    s.right.x = 0.9 ∧ s.right.width = 0.02 ∧ s.right.height = 0.2

instance (s : GameState) : Decidable (stdGeometry s) := by
  unfold stdGeometry; infer_instance

/-- The initial game state of the object literals: both paddles centered,
ball at the origin with velocity `(0.01, 0.01)` and size `0.02`, no key
ever pressed. -/
def initState : GameState where
  left := { x := -0.9, y := 0, width := 0.02, height := 0.2, dy := 0 }
  right := { x := 0.9, y := 0, width := 0.02, height := 0.2, dy := 0 }
  ball := { x := 0, y := 0, dx := 0.01, dy := 0.01, size := 0.02 }
  keys := emptyKeys

/-- Any of the conditional branches of `update()`'s ball pipeline firing on a
state: wall reflection, either paddle collision (against the moved paddles,
as the source reads them), or goal reset. -/
def branchFires (s : GameState) : Prop :=
  wallCond (integrateBall s.ball) ∨
    inOpenBox (movePaddle s.keys "w" "s" s.left)
      (integrateBall s.ball).x (integrateBall s.ball).y ∨
    inOpenBox (movePaddle s.keys "ArrowUp" "ArrowDown" s.right)
      (integrateBall s.ball).x (integrateBall s.ball).y ∨
    goalCond (integrateBall s.ball)

instance (s : GameState) : Decidable (branchFires s) := by
  unfold branchFires; infer_instance

/-- Witness state for wall reflection: the ball one tick below the top wall,
moving up; everything else as in the initial state. -/
def wallState : GameState :=
  { initState with
      ball := { x := 0, y := 0.99, dx := 0.01, dy := 0.01, size := 0.02 } }

/-- Witness state for the paddle-collision boundary: after integration the
ball sits exactly on the left edge `x = -0.92` of the left paddle's box. -/
def edgeState : GameState :=
  { initState with
      ball := { x := -0.93, y := 0, dx := 0.01, dy := 0, size := 0.02 } }

/-- Witness state for a strict paddle hit: after integration the ball is at
`(-0.9, 0.05)`, strictly inside the left paddle's box. -/
def hitState : GameState :=
  { initState with
      ball := { x := -0.91, y := 0.04, dx := 0.01, dy := 0.01, size := 0.02 } }

/-- Witness state for the goal reset: the ball past the right goal line at
`x = 1.0001` with `dx = 0.01`, as in the spec's scenario. -/
def resetState : GameState :=
  { initState with
      ball := { x := 1.0001, y := 0, dx := 0.01, dy := 0.01, size := 0.02 } }

/-- Failing state for the paddle-containment invariant: the left paddle at
its clamp fixed point `y = 0.9` (reachable from the initial state by holding
`w`), no key currently held. -/
def overState : GameState :=
  { initState with
      left := { x := -0.9, y := 0.9, width := 0.02, height := 0.2, dy := 0 } }

/-- Closed form of the free flight from the initial state: after `k` ticks
with no key held and no branch firing, the ball sits at `(k/100, k/100)`
with its initial velocity and size. -/
def ballAt (k : ℕ) : Ball :=
  { x := (k : ℚ) / 100, y := (k : ℚ) / 100, dx := 0.01, dy := 0.01, size := 0.02 }

/-- The whole game state after `k` free-flight ticks from the initial
state: paddles and key map untouched, ball at the closed form. -/
def stateAt (k : ℕ) : GameState :=
  { initState with ball := ballAt k }

attribute [ext] Paddle Ball GameState

/-- The ball as it stands when the goal-reset check of `update()` runs:
integrated, wall-reflected, and collided with both moved paddles. -/
def ballBeforeReset (s : GameState) : Ball :=
  paddleReflect (movePaddle s.keys "ArrowUp" "ArrowDown" s.right)
    (paddleReflect (movePaddle s.keys "w" "s" s.left)
      (wallReflect (integrateBall s.ball)))

/-! ### Field lemmas for the stages of `update()` -/

theorem movePaddle_x (m : String → Option Bool) (u d : String) (p : Paddle) :
    (movePaddle m u d p).x = p.x := rfl

theorem movePaddle_width (m : String → Option Bool) (u d : String)
    (p : Paddle) : (movePaddle m u d p).width = p.width := rfl

theorem movePaddle_height (m : String → Option Bool) (u d : String)
    (p : Paddle) : (movePaddle m u d p).height = p.height := rfl

theorem movePaddle_y (m : String → Option Bool) (u d : String) (p : Paddle) :
    (movePaddle m u d p).y = clampPaddle p.height (p.y + paddleVel m u d) :=
  rfl

theorem integrateBall_x (b : Ball) : (integrateBall b).x = b.x + b.dx := rfl

theorem integrateBall_y (b : Ball) : (integrateBall b).y = b.y + b.dy := rfl

theorem integrateBall_dx (b : Ball) : (integrateBall b).dx = b.dx := rfl

theorem integrateBall_dy (b : Ball) : (integrateBall b).dy = b.dy := rfl

theorem integrateBall_size (b : Ball) : (integrateBall b).size = b.size := rfl

theorem wallReflect_x (b : Ball) : (wallReflect b).x = b.x := by
  unfold wallReflect; split <;> rfl

theorem wallReflect_y (b : Ball) : (wallReflect b).y = b.y := by
  unfold wallReflect; split <;> rfl

theorem wallReflect_dx (b : Ball) : (wallReflect b).dx = b.dx := by
  unfold wallReflect; split <;> rfl

theorem wallReflect_size (b : Ball) : (wallReflect b).size = b.size := by
  unfold wallReflect; split <;> rfl

theorem wallReflect_dy_hit (b : Ball) (h : wallCond b) :
    (wallReflect b).dy = -b.dy := by
  unfold wallReflect; rw [if_pos h]

theorem wallReflect_dy_miss (b : Ball) (h : ¬ wallCond b) :
    (wallReflect b).dy = b.dy := by
  unfold wallReflect; rw [if_neg h]

theorem paddleReflect_x (p : Paddle) (b : Ball) :
    (paddleReflect p b).x = b.x := by
  unfold paddleReflect; split <;> rfl

theorem paddleReflect_y (p : Paddle) (b : Ball) :
    (paddleReflect p b).y = b.y := by
  unfold paddleReflect; split <;> rfl

theorem paddleReflect_dy (p : Paddle) (b : Ball) :
    (paddleReflect p b).dy = b.dy := by
  unfold paddleReflect; split <;> rfl

theorem paddleReflect_size (p : Paddle) (b : Ball) :
    (paddleReflect p b).size = b.size := by
  unfold paddleReflect; split <;> rfl

theorem paddleReflect_dx_hit (p : Paddle) (b : Ball)
    (h : inOpenBox p b.x b.y) : (paddleReflect p b).dx = -b.dx := by
  unfold paddleReflect; rw [if_pos h]

theorem paddleReflect_miss (p : Paddle) (b : Ball)
    (h : ¬ inOpenBox p b.x b.y) : paddleReflect p b = b := by
  unfold paddleReflect; rw [if_neg h]

theorem goalReset_dy (b : Ball) : (goalReset b).dy = b.dy := by
  unfold goalReset; split <;> rfl

theorem goalReset_size (b : Ball) : (goalReset b).size = b.size := by
  unfold goalReset; split <;> rfl

theorem goalReset_hit (b : Ball) (h : goalCond b) :
    goalReset b = { b with x := 0, y := 0, dx := -b.dx } := by
  unfold goalReset; rw [if_pos h]

theorem goalReset_miss (b : Ball) (h : ¬ goalCond b) : goalReset b = b := by
  unfold goalReset; rw [if_neg h]

theorem step_left_def (s : GameState) :
    (step s).left = movePaddle s.keys "w" "s" s.left := rfl

theorem step_right_def (s : GameState) :
    (step s).right = movePaddle s.keys "ArrowUp" "ArrowDown" s.right := rfl

theorem step_ball_def (s : GameState) :
    (step s).ball = goalReset (ballBeforeReset s) := rfl

theorem ballBeforeReset_x (s : GameState) :
    (ballBeforeReset s).x = s.ball.x + s.ball.dx := by
  unfold ballBeforeReset
  rw [paddleReflect_x, paddleReflect_x, wallReflect_x, integrateBall_x]

theorem ballBeforeReset_y (s : GameState) :
    (ballBeforeReset s).y = s.ball.y + s.ball.dy := by
  unfold ballBeforeReset
  rw [paddleReflect_y, paddleReflect_y, wallReflect_y, integrateBall_y]

theorem ballBeforeReset_dy (s : GameState) :
    (ballBeforeReset s).dy = (wallReflect (integrateBall s.ball)).dy := by
  unfold ballBeforeReset
  rw [paddleReflect_dy, paddleReflect_dy]

/-- The clamp keeps any value inside the clamp interval, as soon as that
interval is nonempty, that is `height ≤ 2`. -/
theorem clampPaddle_mem (h y : ℚ) (hh : h ≤ 2) :
    -1 + h / 2 ≤ clampPaddle h y ∧ clampPaddle h y ≤ 1 - h / 2 :=
  ⟨le_max_left _ _, max_le (by linarith) (min_le_left _ _)⟩

/-- The goal condition is determined by the integrated position alone: the
wall and paddle stages do not move the ball. -/
theorem goalCond_ballBeforeReset (s : GameState)
    (h : goalCond (integrateBall s.ball)) : goalCond (ballBeforeReset s) := by
  unfold goalCond at h ⊢
  rw [ballBeforeReset_x]
  rw [integrateBall_x] at h
  exact h

/-- A fold of key events that never touches `k` leaves the entry of `k`
unread and unchanged. -/
theorem applyEvents_untouched (es : List (String × Bool))
    (m : String → Option Bool) (k : String) (h : ∀ e ∈ es, e.1 ≠ k) :
    applyEvents m es k = m k := by
  induction es generalizing m with
  | nil => rfl
  | cons e es ih =>
    have h1 : e.1 ≠ k := h e (List.mem_cons_self e es)
    have h2 : ∀ x ∈ es, x.1 ≠ k := fun x hx => h x (List.mem_cons_of_mem e hx)
    show applyEvents (setPressed m e.1 e.2) es k = m k
    rw [ih (setPressed m e.1 e.2) h2]
    unfold setPressed
    rw [if_neg fun hk => h1 hk.symm]

/-- C1: after one `update()`, each paddle's vertical position lies in
`[-1 + height/2, 1 - height/2]` for that paddle's `height` field, and the
clamped value is literally the min/max of the integrated position — no
bounce.  The interval-nonemptiness hypotheses `height ≤ 2` hold for every
paddle the program builds (`height = 0.2`). -/
theorem step_clamps_paddle_positions (s : GameState)
    (hl : s.left.height ≤ 2) (hr : s.right.height ≤ 2) :
    ((-1 + s.left.height / 2 ≤ (step s).left.y ∧
        (step s).left.y ≤ 1 - s.left.height / 2) ∧
      (-1 + s.right.height / 2 ≤ (step s).right.y ∧
        (step s).right.y ≤ 1 - s.right.height / 2)) ∧
      (step s).left.y =
        clampPaddle s.left.height (s.left.y + paddleVel s.keys "w" "s") ∧
      (step s).right.y =
        clampPaddle s.right.height
          (s.right.y + paddleVel s.keys "ArrowUp" "ArrowDown") := by
  have el : (step s).left.y =
      clampPaddle s.left.height (s.left.y + paddleVel s.keys "w" "s") := rfl
  have er : (step s).right.y =
      clampPaddle s.right.height
        (s.right.y + paddleVel s.keys "ArrowUp" "ArrowDown") := rfl
  refine ⟨⟨?_, ?_⟩, el, er⟩
  · rw [el]; exact clampPaddle_mem _ _ hl
  · rw [er]; exact clampPaddle_mem _ _ hr

/-- Witness for C1 at the initial state. -/
theorem step_clamps_paddle_positions_witness :
    (initState.left.height ≤ 2 ∧ initState.right.height ≤ 2) ∧
      ((-1 + initState.left.height / 2 ≤ (step initState).left.y ∧
          (step initState).left.y ≤ 1 - initState.left.height / 2) ∧
        (-1 + initState.right.height / 2 ≤ (step initState).right.y ∧
          (step initState).right.y ≤ 1 - initState.right.height / 2)) ∧
      (step initState).left.y =
        clampPaddle initState.left.height
          (initState.left.y + paddleVel initState.keys "w" "s") ∧
      (step initState).right.y =
        clampPaddle initState.right.height
          (initState.right.y + paddleVel initState.keys "ArrowUp" "ArrowDown") :=
  ⟨⟨by with_unfolding_all decide, by with_unfolding_all decide⟩,
    step_clamps_paddle_positions initState (by with_unfolding_all decide)
      (by with_unfolding_all decide)⟩

/-- C2: if after the ball integration of a step the ball's `y` exceeds
`1 - size` or is below `-1 + size`, that same step negates `dy`; the sign
flips exactly once, since no other branch of `update()` writes `dy`. -/
theorem step_wall_negates_dy (s : GameState)
    (h : wallCond (integrateBall s.ball)) : (step s).ball.dy = -s.ball.dy := by
  rw [step_ball_def, goalReset_dy, ballBeforeReset_dy,
    wallReflect_dy_hit _ h, integrateBall_dy]

/-- Witness for C2: ball at `y = 1 - size + ε` (`y = 0.99`, `size = 0.02`,
`ε = 0.01`) moving up with `dy = 0.01`. -/
theorem step_wall_negates_dy_witness :
    wallCond (integrateBall wallState.ball) ∧
      (step wallState).ball.dy = -wallState.ball.dy ∧
      (step wallState).ball.dy = -0.01 :=
  ⟨by with_unfolding_all decide,
    step_wall_negates_dy wallState (by with_unfolding_all decide),
    by with_unfolding_all decide⟩

/-- C7: `setPressed(k, true)` twice is the same key map as once; any write
overwrites the prior entry for that key; entries of other keys are
untouched. -/
theorem setPressed_idempotent_overwrite (m : String → Option Bool)
    (k : String) :
    setPressed (setPressed m k true) k true = setPressed m k true ∧
      (∀ b prev : Bool, setPressed (setPressed m k prev) k b =
        setPressed m k b) ∧
      (∀ b : Bool, ∀ j : String, j ≠ k → setPressed m k b j = m j) := by
  refine ⟨?_, ?_, ?_⟩
  · funext j; unfold setPressed; by_cases h : j = k <;> simp [h]
  · intro b prev; funext j; unfold setPressed; by_cases h : j = k <;> simp [h]
  · intro b j h; unfold setPressed; simp [h]

/-- Witness for C7 on the empty key map with `k = "w"`, other key `"s"`. -/
theorem setPressed_idempotent_overwrite_witness :
    setPressed (setPressed emptyKeys "w" true) "w" true =
        setPressed emptyKeys "w" true ∧
      ("s" ≠ "w" ∧ setPressed emptyKeys "w" true "s" = emptyKeys "s") :=
  ⟨(setPressed_idempotent_overwrite emptyKeys "w").1,
    by decide,
    (setPressed_idempotent_overwrite emptyKeys "w").2.2 true "s" (by decide)⟩

/-- C8: a key never written by the event handlers reads as `false`: the
pressed-state `update()` sees for an unknown key is boolean false. -/
theorem isPressed_unset_key (es : List (String × Bool)) (k : String)
    (h : ∀ e ∈ es, e.1 ≠ k) :
    isPressed (applyEvents emptyKeys es) k = false := by
  unfold isPressed
  rw [applyEvents_untouched es emptyKeys k h]
  rfl

/-- Witness for C8: a session that pressed `"w"` and released `"ArrowUp"`
never touched `"s"`. -/
theorem isPressed_unset_key_witness :
    isPressed (applyEvents emptyKeys [("w", true), ("ArrowUp", false)])
        "s" = false ∧
      ("w" ≠ "s" ∧ "ArrowUp" ≠ "s") :=
  ⟨isPressed_unset_key [("w", true), ("ArrowUp", false)] "s" (by decide),
    by decide, by decide⟩

/-- C9: `update()` never changes a paddle's `x`, `width` or `height`, the
ball's `size`, or the key map — it writes only the paddles' `y`, `dy` and
the ball's `x`, `y`, `dx`, `dy`. -/
theorem step_frame (s : GameState) :
    (step s).left.x = s.left.x ∧ (step s).left.width = s.left.width ∧
      (step s).left.height = s.left.height ∧
      (step s).right.x = s.right.x ∧ (step s).right.width = s.right.width ∧
      (step s).right.height = s.right.height ∧
      (step s).ball.size = s.ball.size ∧ (step s).keys = s.keys := by
  refine ⟨rfl, rfl, rfl, rfl, rfl, rfl, ?_, rfl⟩
  rw [step_ball_def, goalReset_size]
  unfold ballBeforeReset
  rw [paddleReflect_size, paddleReflect_size, wallReflect_size,
    integrateBall_size]

/-- C4: if after the ball integration of a step the ball's `x` is beyond
`+1` or `-1`, that step ends with the ball at the origin and with `dx` the
negation of the `dx` the ball carried into the reset branch, whichever side
was crossed; `dy` and `size` are untouched by the reset. -/
theorem step_goal_resets_ball (s : GameState)
    (h : goalCond (integrateBall s.ball)) :
    (step s).ball =
      { (ballBeforeReset s) with x := 0, y := 0, dx := -(ballBeforeReset s).dx } := by
  rw [step_ball_def]
  exact goalReset_hit _ (goalCond_ballBeforeReset s h)

/-- Witness for C4: the spec's concrete goal, ball at `x = 1.0001` with
`dx = 0.01`, ends the step at the origin with `dx = -0.01`. -/
theorem step_goal_resets_ball_witness :
    goalCond (integrateBall resetState.ball) ∧
      (step resetState).ball =
        { (ballBeforeReset resetState) with x := 0, y := 0, dx := -(ballBeforeReset resetState).dx } ∧
      ((step resetState).ball.x = 0 ∧ (step resetState).ball.y = 0 ∧
        (step resetState).ball.dx = -0.01) :=
  ⟨by with_unfolding_all decide,
    step_goal_resets_ball resetState (by with_unfolding_all decide),
    by with_unfolding_all decide⟩

/-- C10: when the goal reset fires, the step still puts the ball at the
origin, but `dy` is exactly what the wall stage left it — the reset writes
only `x`, `y` and `dx`, so the ball re-serves with the `dy` it already
had, not its initial serve velocity. -/
theorem step_reset_keeps_dy (s : GameState)
    (h : goalCond (integrateBall s.ball)) :
    (step s).ball.x = 0 ∧ (step s).ball.y = 0 ∧
      (step s).ball.dy = (wallReflect (integrateBall s.ball)).dy := by
  rw [step_ball_def, goalReset_hit _ (goalCond_ballBeforeReset s h)]
  exact ⟨rfl, rfl, ballBeforeReset_dy s⟩

/-- Witness for C10: in the concrete goal state the wall branch does not
fire, so the re-served ball keeps its incoming `dy = 0.01` exactly. -/
theorem step_reset_keeps_dy_witness :
    goalCond (integrateBall resetState.ball) ∧
      ((step resetState).ball.x = 0 ∧ (step resetState).ball.y = 0 ∧
        (step resetState).ball.dy =
          (wallReflect (integrateBall resetState.ball)).dy) ∧
      (step resetState).ball.dy = 0.01 ∧ resetState.ball.dy = 0.01 :=
  ⟨by with_unfolding_all decide,
    step_reset_keeps_dy resetState (by with_unfolding_all decide),
    by with_unfolding_all decide, by with_unfolding_all decide⟩

/-- C5 fails on the code: at the clamp's own fixed point `y = 0.9` the
left paddle survives a step at `y = 0.9`, yet the rectangle the renderer
draws spans `[y - height, y + height] = [0.7, 1.1]`, leaving the `[-1, 1]`
play field by `height / 2`.  The clamp bound `1 - height / 2` treats
`height` as a full extent while `drawRect` treats it as a half-extent. -/
theorem paddle_rect_leaves_field :
    (step overState).left.y = 0.9 ∧ (step overState).left.height = 0.2 ∧
      (step overState).left.y + (step overState).left.height = 1.1 ∧
      1 < (step overState).left.y + (step overState).left.height := by
  with_unfolding_all decide

/-- C3 as stated is false on the code: with the game's paddles, a ball that
lands exactly on the left edge `x = paddleX - width` of the left paddle's
closed bounding box is inside the closed box, yet the step leaves `dx`
untouched — the source compares with strict `<` and `>`. -/
theorem paddle_closed_box_no_reflection :
    inClosedBox (step edgeState).left
        (edgeState.ball.x + edgeState.ball.dx)
        (edgeState.ball.y + edgeState.ball.dy) ∧
      (step edgeState).ball.dx = edgeState.ball.dx ∧
      (step edgeState).ball.dx ≠ -edgeState.ball.dx := by
  with_unfolding_all decide

/-- C3 amended: with the paddle geometry the program builds, a ball whose
integrated position lies strictly inside a paddle's open bounding box
(`(paddleX - width, paddleX + width) × (paddleY - height/2, paddleY +
height/2)`, the source's strict comparisons) has `dx` negated by that same
step, with no positional correction. -/
theorem step_paddle_open_box_negates_dx (s : GameState) (hg : stdGeometry s)
    (h : inOpenBox (step s).left (s.ball.x + s.ball.dx)
          (s.ball.y + s.ball.dy) ∨
        inOpenBox (step s).right (s.ball.x + s.ball.dx)
          (s.ball.y + s.ball.dy)) :
    (step s).ball.dx = -s.ball.dx := by
  obtain ⟨hlx, hlw, hlh, hrx, hrw, hrh⟩ := hg
  set l := movePaddle s.keys "w" "s" s.left with hl
  set r := movePaddle s.keys "ArrowUp" "ArrowDown" s.right with hr
  set b1 := wallReflect (integrateBall s.ball) with hb1
  have hb1x : b1.x = s.ball.x + s.ball.dx := by
    rw [hb1, wallReflect_x, integrateBall_x]
  have hb1y : b1.y = s.ball.y + s.ball.dy := by
    rw [hb1, wallReflect_y, integrateBall_y]
  have hb1dx : b1.dx = s.ball.dx := by
    rw [hb1, wallReflect_dx, integrateBall_dx]
  have hlx' : l.x = -0.9 := by rw [hl, movePaddle_x, hlx]
  have hlw' : l.width = 0.02 := by rw [hl, movePaddle_width, hlw]
  have hrx' : r.x = 0.9 := by rw [hr, movePaddle_x, hrx]
  have hrw' : r.width = 0.02 := by rw [hr, movePaddle_width, hrw]
  have hstep : (step s).ball = goalReset (paddleReflect r (paddleReflect l b1)) := rfl
  cases h with
  | inl hL =>
    rw [step_left_def, ← hl] at hL
    rw [← hb1x, ← hb1y] at hL
    have e2 : paddleReflect l b1 = { b1 with dx := -b1.dx } :=
      by unfold paddleReflect; rw [if_pos hL]
    have hxlo : l.x - l.width < b1.x := hL.1
    have hxhi : b1.x < l.x + l.width := hL.2.1
    rw [hlx', hlw'] at hxlo hxhi
    have hnR : ¬ inOpenBox r (paddleReflect l b1).x (paddleReflect l b1).y := by
      rw [paddleReflect_x, paddleReflect_y]
      intro hc
      have c1 : r.x - r.width < b1.x := hc.1
      rw [hrx', hrw'] at c1
      linarith
    have e3 : paddleReflect r (paddleReflect l b1) = paddleReflect l b1 :=
      paddleReflect_miss _ _ hnR
    have hnG : ¬ goalCond (paddleReflect r (paddleReflect l b1)) := by
      rw [e3, e2]
      intro hc
      cases hc with
      | inl c => have cx : b1.x > 1 := c; linarith
      | inr c => have cx : b1.x < -1 := c; linarith
    calc (step s).ball.dx
        = (goalReset (paddleReflect r (paddleReflect l b1))).dx := by rw [hstep]
      _ = (paddleReflect r (paddleReflect l b1)).dx := by
          rw [goalReset_miss _ hnG]
      _ = (paddleReflect l b1).dx := by rw [e3]
      _ = -b1.dx := by rw [e2]
      _ = -s.ball.dx := by rw [hb1dx]
  | inr hR =>
    rw [step_right_def, ← hr] at hR
    rw [← hb1x, ← hb1y] at hR
    have hxlo : r.x - r.width < b1.x := hR.1
    have hxhi : b1.x < r.x + r.width := hR.2.1
    rw [hrx', hrw'] at hxlo hxhi
    have hnL : ¬ inOpenBox l b1.x b1.y := by
      intro hc
      have c1 : b1.x < l.x + l.width := hc.2.1
      rw [hlx', hlw'] at c1
      linarith
    have e2 : paddleReflect l b1 = b1 := paddleReflect_miss _ _ hnL
    have e3 : paddleReflect r (paddleReflect l b1) = { b1 with dx := -b1.dx } := by
      rw [e2]; unfold paddleReflect; rw [if_pos hR]
    have hnG : ¬ goalCond (paddleReflect r (paddleReflect l b1)) := by
      rw [e3]
      intro hc
      cases hc with
      | inl c => have cx : b1.x > 1 := c; linarith
      | inr c => have cx : b1.x < -1 := c; linarith
    calc (step s).ball.dx
        = (goalReset (paddleReflect r (paddleReflect l b1))).dx := by rw [hstep]
      _ = (paddleReflect r (paddleReflect l b1)).dx := by
          rw [goalReset_miss _ hnG]
      _ = -b1.dx := by rw [e3]
      _ = -s.ball.dx := by rw [hb1dx]

/-- Witness for the amended C3: a ball integrated to `(-0.9, 0.05)`,
strictly inside the left paddle's box, leaves the step with `dx = -0.01`. -/
theorem step_paddle_open_box_negates_dx_witness :
    (stdGeometry hitState ∧
        inOpenBox (step hitState).left
          (hitState.ball.x + hitState.ball.dx)
          (hitState.ball.y + hitState.ball.dy)) ∧
      (step hitState).ball.dx = -hitState.ball.dx ∧
      (step hitState).ball.dx = -0.01 :=
  ⟨⟨by with_unfolding_all decide, by with_unfolding_all decide⟩,
    step_paddle_open_box_negates_dx hitState (by with_unfolding_all decide)
      (Or.inl (by with_unfolding_all decide)),
    by with_unfolding_all decide⟩

/-- With the wall condition false the wall stage is the identity. -/
theorem wallReflect_miss (b : Ball) (h : ¬ wallCond b) : wallReflect b = b := by
  unfold wallReflect; rw [if_neg h]

/-- With no key held, moving the initial left paddle is the identity: the
derived velocity is `0` and the clamp returns the centered position. -/
theorem moveLeft_id : movePaddle emptyKeys "w" "s" initState.left =
    initState.left := by
  with_unfolding_all decide

/-- With no key held, moving the initial right paddle is the identity. -/
theorem moveRight_id : movePaddle emptyKeys "ArrowUp" "ArrowDown"
    initState.right = initState.right := by
  with_unfolding_all decide

/-- Integrating the closed-form ball advances it one tick. -/
theorem ballAt_succ (k : ℕ) : integrateBall (ballAt k) = ballAt (k + 1) := by
  have h1 : (k : ℚ) / 100 + 0.01 = ((k + 1 : ℕ) : ℚ) / 100 := by
    push_cast
    have e : (0.01 : ℚ) = 1 / 100 := by norm_num
    rw [e]; ring
  ext
  · show (k : ℚ) / 100 + 0.01 = ((k + 1 : ℕ) : ℚ) / 100; exact h1
  · show (k : ℚ) / 100 + 0.01 = ((k + 1 : ℕ) : ℚ) / 100; exact h1
  · rfl
  · rfl
  · rfl

/-- During the first 50 ticks of free flight, no branch of the ball
pipeline fires: the integrated position stays in `[0.01, 0.5]` on both
axes, away from walls, paddles and goals. -/
theorem ballAt_quiet (k : ℕ) (hk : k < 50) :
    ¬ wallCond (ballAt (k + 1)) ∧
      ¬ inOpenBox initState.left (ballAt (k + 1)).x (ballAt (k + 1)).y ∧
      ¬ inOpenBox initState.right (ballAt (k + 1)).x (ballAt (k + 1)).y ∧
      ¬ goalCond (ballAt (k + 1)) := by
  have hku : (k : ℚ) ≤ 49 := by exact_mod_cast (by omega : k ≤ 49)
  have hk0 : (0 : ℚ) ≤ (k : ℚ) := Nat.cast_nonneg k
  have hx : (ballAt (k + 1)).x = ((k : ℚ) + 1) / 100 := by
    show ((k + 1 : ℕ) : ℚ) / 100 = ((k : ℚ) + 1) / 100
    push_cast; ring
  have hy : (ballAt (k + 1)).y = ((k : ℚ) + 1) / 100 := by
    show ((k + 1 : ℕ) : ℚ) / 100 = ((k : ℚ) + 1) / 100
    push_cast; ring
  have hsz : (ballAt (k + 1)).size = 0.02 := rfl
  have hq1 : (1 : ℚ) / 100 ≤ ((k : ℚ) + 1) / 100 := by linarith
  have hq2 : ((k : ℚ) + 1) / 100 ≤ 1 / 2 := by linarith
  have elx : initState.left.x = -0.9 := rfl
  have elw : initState.left.width = 0.02 := rfl
  have erx : initState.right.x = 0.9 := rfl
  have erw : initState.right.width = 0.02 := rfl
  refine ⟨?_, ?_, ?_, ?_⟩
  · intro h
    unfold wallCond at h
    rw [hy, hsz] at h
    rcases h with h | h <;> norm_num at h <;> linarith
  · intro h
    obtain ⟨_, c2, _, _⟩ := h
    rw [hx, elx, elw] at c2
    norm_num at c2
    linarith
  · intro h
    obtain ⟨c1, _, _, _⟩ := h
    rw [hx, erx, erw] at c1
    norm_num at c1
    linarith
  · intro h
    unfold goalCond at h
    rw [hx] at h
    rcases h with h | h <;> norm_num at h <;> linarith

/-- One tick of free flight keeps the closed form. -/
theorem step_stateAt (k : ℕ) (hk : k < 50) :
    step (stateAt k) = stateAt (k + 1) := by
  obtain ⟨hnw, hnl, hnr, hng⟩ := ballAt_quiet k hk
  have hball : stepBall initState.left initState.right (ballAt k) =
      ballAt (k + 1) := by
    unfold stepBall
    rw [ballAt_succ k, wallReflect_miss _ hnw, paddleReflect_miss _ _ hnl,
      paddleReflect_miss _ _ hnr, goalReset_miss _ hng]
  have e : step (stateAt k) =
      GameState.mk (movePaddle emptyKeys "w" "s" initState.left)
        (movePaddle emptyKeys "ArrowUp" "ArrowDown" initState.right)
        (stepBall (movePaddle emptyKeys "w" "s" initState.left)
          (movePaddle emptyKeys "ArrowUp" "ArrowDown" initState.right)
          (ballAt k))
        emptyKeys := rfl
  rw [e, moveLeft_id, moveRight_id, hball]
  rfl

/-- Zero free-flight ticks is the initial state itself. -/
theorem stateAt_zero : stateAt 0 = initState := by
  have hb : ballAt 0 = initState.ball := by with_unfolding_all decide
  show GameState.mk initState.left initState.right (ballAt 0)
      initState.keys = initState
  rw [hb]

/-- C6: from the initial state with no key ever held, 50 calls of
`update()` put the ball exactly at `(0.5, 0.5)` — the closed form
`50 · 0.01` — and none of the wall, paddle or goal branches fires during
those 50 ticks. -/
theorem fifty_ticks_exact :
    (step^[50] initState).ball.x = 0.5 ∧
      (step^[50] initState).ball.y = 0.5 ∧
      ∀ k, k < 50 → ¬ branchFires (step^[k] initState) := by
  have key : ∀ k : ℕ, k ≤ 50 → step^[k] initState = stateAt k := by
    intro k hk
    induction k with
    | zero => simpa using stateAt_zero.symm
    | succ n ih =>
      rw [Function.iterate_succ_apply', ih (by omega)]
      exact step_stateAt n (by omega)
  have hquiet : ∀ k, k < 50 → ¬ branchFires (stateAt k) := by
    intro k hk
    obtain ⟨hnw, hnl, hnr, hng⟩ := ballAt_quiet k hk
    intro h
    unfold branchFires at h
    rw [show (stateAt k).ball = ballAt k from rfl, ballAt_succ k,
      show (stateAt k).keys = emptyKeys from rfl,
      show (stateAt k).left = initState.left from rfl,
      show (stateAt k).right = initState.right from rfl,
      moveLeft_id, moveRight_id] at h
    rcases h with h | h | h | h
    · exact hnw h
    · exact hnl h
    · exact hnr h
    · exact hng h
  refine ⟨?_, ?_, ?_⟩
  · rw [key 50 le_rfl]
    show ((50 : ℕ) : ℚ) / 100 = 0.5
    norm_num
  · rw [key 50 le_rfl]
    show ((50 : ℕ) : ℚ) / 100 = 0.5
    norm_num
  · intro k hk
    rw [key k (le_of_lt hk)]
    exact hquiet k hk
